import Mathlib

/-!
Verification development for the df-plugin-dev-server repository
(`src/server.js`): a development-time bundling tool built around esbuild,
consisting of an import-rewrite plugin configuration, a one-shot bundle
orchestrator, a dev proxy HTTP server, and a bootstrap-module generator.

The JavaScript source is shallowly embedded below: each JS function is
translated to a Lean function over explicit data (strings, association
lists for headers and query parameters); external collaborators
(esbuild's serve endpoint, the filesystem, `get-port`, `require.resolve`)
are passed in as explicit function parameters so that theorems quantify
over their behaviour.
-/

namespace DfPlugin

/-- An HTTP response as the proxy models it: status code, headers in
writing order, and the body as a byte/character string. -/
structure Response where
  status : Nat
  headers : List (String × String)
  body : String
deriving DecidableEq, Repr

/-- An inbound HTTP request: the raw request target `url` (path plus
query string, as in Node's `req.url`), the method, the header list and
the request body. -/
structure Request where
  url : String
  methodName : String
  headers : List (String × String)
  body : String
deriving DecidableEq, Repr

/-! ### String utilities (executable substring test) -/

/-- `beginsWith pat l` is true when `pat` is an initial segment of `l`. -/
def beginsWith : List Char → List Char → Bool
  | [], _ => true
  | _ :: _, [] => false
  | c :: cs, d :: ds => c = d && beginsWith cs ds

/-- `containsChars pat l` is true when `pat` occurs contiguously in `l`. -/
def containsChars (pat : List Char) : List Char → Bool
  | [] => beginsWith pat []
  | l@(_ :: rest) => beginsWith pat l || containsChars pat rest

/-- `strContains s sub` is true when `sub` occurs as a literal substring
of `s`. -/
def strContains (s sub : String) : Bool :=
  containsChars sub.data s.data

/-- `strTake s n` is the string of the first `n` characters of `s`
(model of `String.take`, kept kernel-reducible). -/
def strTake (s : String) (n : Nat) : String :=
  String.mk (s.data.take n)

/-! ### URL parsing

Model of `new URL(req.url, base)` as used by the request handler
(`src/server.js` line 126): the request target is split at the first
`?` into `pathname` and the search string, and the search string is
split at `&` and `=` into the query-parameter list that
`URLSearchParams` exposes. -/

/-- Break a character list at the first occurrence of `sep`: returns
the part before it and, when `sep` occurs, the part after it. -/
def breakAtFirst (sep : Char) : List Char → List Char × Option (List Char)
  | [] => ([], none)
  | c :: cs =>
    if c = sep then ([], some cs)
    else
      let r := breakAtFirst sep cs
      (c :: r.1, r.2)

/-- Split a character list at every occurrence of `sep`. -/
def splitOnChar (sep : Char) : List Char → List (List Char)
  | [] => [[]]
  | c :: cs =>
    match splitOnChar sep cs with
    | [] => [[c]]
    | r :: rs => if c = sep then [] :: r :: rs else (c :: r) :: rs

/-- Split a request target into `(pathname, search string)` at the
first `?`. -/
def splitTarget (url : String) : String × String :=
  match breakAtFirst ('?') url.data with
  | (p, none) => (String.mk p, "")
  | (p, some rest) => (String.mk p, String.mk rest)

/-- Parse a search string into its ordered key/value pairs, as
`URLSearchParams` does: pieces are separated by `&`, the key of a piece
is everything before its first `=` (the whole piece if it has none),
and empty pieces are dropped. -/
def parseParams (search : String) : List (String × String) :=
  (splitOnChar ('&') search.data).filterMap (fun piece =>
    match piece with
    | [] => none
    | _ =>
      match breakAtFirst ('=') piece with
      | (k, none) => some (String.mk k, "")
      | (k, some v) => some (String.mk k, String.mk v))

/-- The parsed query parameters of a request target
(`searchParams` at `src/server.js` line 126). -/
def searchParamsOf (url : String) : List (String × String) :=
  parseParams (splitTarget url).2

/-- The parsed pathname of a request target
(`pathname` at `src/server.js` line 126). -/
def pathnameOf (url : String) : String :=
  (splitTarget url).1

/-- `searchParams.has(k)`: the query string has a parameter named `k`,
value irrelevant. -/
def hasParam (url k : String) : Bool :=
  (searchParamsOf url).any (fun kv => kv.1 = k)

/-! ### Header maps -/

/-- Look a header up by exact name in a header list (first binding
wins, as in a JS object). -/
def lookupHeader (hs : List (String × String)) (k : String) : Option String :=
  (hs.find? (fun p => p.1 = k)).map (fun p => p.2)

/-- The JS object spread `{...hs, k: v}`: if `k` is already bound its
value is overwritten in place, otherwise the binding `k: v` is appended
after all existing bindings. -/
def spreadSetHeader (hs : List (String × String)) (k v : String) : List (String × String) :=
  if hs.any (fun p => p.1 = k) then
    hs.map (fun p => if p.1 = k then (k, v) else p)
  else
    hs ++ [(k, v)]

/-! ### Bootstrap Module Generator (`templateForPathname`,
`src/server.js` lines 164-187) -/

/-- The generated bootstrap module source, translated verbatim from the
template literal at `src/server.js` lines 165-186. The `pathname`
argument is accepted but unused, exactly as in the source. -/
def templateForPathname (pathname : String) : String :=
  "// Development plugin with auto-reload\nclass Plugin \x7b\n  constructor() \x7b\n    this.plugin = null;\n  \x7d\n  async render(container) \x7b\n    const cacheBust = Date.now();\n    const modulePath = \"/PluginTemplate.js?\" + cacheBust;\n    const \x7b default: RevealMarket \x7d = await import(modulePath);\n    this.plugin = new RevealMarket();\n    await this.plugin?.render?.(container);\n  \x7d\n  draw(ctx) \x7b\n    this.plugin?.draw?.(ctx);\n  \x7d\n  destroy() \x7b\n    this.plugin?.destroy?.();\n  \x7d\n\x7d\n\nexport default Plugin;\n"

/-! ### Dev proxy request handler (`src/server.js` lines 125-156)

The internal bundler server (esbuild's serve endpoint) is modelled as an
arbitrary function `bundler : Request → Response`; the handler forwards
the original request unchanged (same method, path+query, headers, body —
lines 137-143 and 155), so the forwarded request is `req` itself. The
returned `Bool` records whether the forwarding path was taken, i.e.
whether a connection to the internal bundler was opened. -/

/-- One request/response cycle of the proxy server. -/
def handleRequest (bundler : Request → Response) (req : Request) : Response × Bool :=
  if hasParam req.url "dev" then
    ({ status := 200,
       headers := [("content-type", "application/javascript"),
                   ("access-control-allow-origin", "*")],
       body := templateForPathname (pathnameOf req.url) }, false)
  else
    let upstream := bundler req
    ({ status := upstream.status,
       headers := spreadSetHeader upstream.headers "access-control-allow-origin" "*",
       body := upstream.body }, true)

/-! ### Import Rewrite Policy (`src/server.js` lines 16-42 and 52-67)

esbuild applies `onResolve` hooks in plugin order and, within a plugin,
in registration order; the first hook whose filter matches and whose
callback returns a result decides the resolution. Each hook is embedded
as a `ResolveRule` (the filter regex as a `String → Bool` predicate, the
callback result as a `ResolveAction`); a whole configuration is the
ordered rule list produced by `getExtraConfigPlugins`. `require.resolve`
is an external collaborator (Node module resolution) and is passed in as
a function `resolve : String → String`. -/

/-- Outcome of running the resolution hooks on one module specifier. -/
inductive ResolveAction where
  | unchanged
  | externalize
  | redirect (target : String)
deriving DecidableEq, Repr

/-- One registered `onResolve` hook. -/
structure ResolveRule where
  test : String → Bool
  action : String → ResolveAction

/-- The filter regex `^https?:\/\/` of the http-external plugin: it is
anchored only at the start, so it holds exactly when the specifier
starts with `http://` or `https://`. -/
def matchesHttp (s : String) : Bool :=
  strTake s 7 = "http://" || strTake s 8 = "https://"

/-- The `http-external` plugin (`src/server.js` lines 16-24): every
specifier matching `^https?:\/\/` is marked external, path unchanged. -/
def httpExternalResolver : List ResolveRule :=
  [⟨matchesHttp, fun _ => ResolveAction.externalize⟩]

/-- The `preact` plugin (`src/server.js` lines 27-42), in registration
order: `react-dom/test-utils`, `react-dom` and `react` (filters anchored
at both ends, so exact equality) are redirected to the resolved paths of
`preact/test-utils` and `preact/compat`. -/
def preactResolver (resolve : String → String) : List ResolveRule :=
  [⟨fun s => s = "react-dom/test-utils", fun _ => ResolveAction.redirect (resolve "preact/test-utils")⟩,
   ⟨fun s => s = "react-dom", fun _ => ResolveAction.redirect (resolve "preact/compat")⟩,
   ⟨fun s => s = "react", fun _ => ResolveAction.redirect (resolve "preact/compat")⟩]

/-- The plugin list built by `getExtraConfig` (`src/server.js` lines
52-67): always `httpExternalResolver`, plus `preactResolver` when alias
mode (`preact`) is enabled. -/
def getExtraConfigPlugins (preact : Bool) (resolve : String → String) : List ResolveRule :=
  httpExternalResolver ++ (if preact then preactResolver resolve else [])

/-- Classification of one module specifier by the configured hooks:
first matching rule wins, no match leaves the specifier unchanged. -/
def classify (preact : Bool) (resolve : String → String) (spec : String) : ResolveAction :=
  match (getExtraConfigPlugins preact resolve).find? (fun r => r.test spec) with
  | some r => r.action spec
  | none => ResolveAction.unchanged

/-! ### Bundle Orchestrator (`bundle`, `src/server.js` lines 69-85)

`esbuild.build` is an external collaborator; its outcome is passed in as
a `BuildOutcome`. The `try/catch` around it is embedded as a match: on
an error the catch block logs the error (`reported`) and calls
`process.exit(1)` (`exitCode = some 1`, so the function does not return
normally); on success the function returns normally with no value. -/

/-- Result of the external bundler's one-shot build. -/
inductive BuildOutcome where
  | ok
  | error (msg : String)
deriving DecidableEq, Repr

/-- What one `bundle` invocation did: the error message surfaced to the
operator (if any), the process exit code it forced (if any), and whether
the function returned normally. -/
structure BundleResult where
  reported : Option String
  exitCode : Option Nat
  returnedNormally : Bool
deriving DecidableEq, Repr

/-- The error-handling behaviour of `bundle` (`src/server.js` lines
73-84). -/
def bundle (buildResult : BuildOutcome) : BundleResult :=
  match buildResult with
  | BuildOutcome.ok => { reported := none, exitCode := none, returnedNormally := true }
  | BuildOutcome.error msg => { reported := some msg, exitCode := some 1, returnedNormally := false }

/-! ### Entry-point resolution in `start` (`src/server.js` lines 91-110)

The filesystem (`fs.readdir`, `process.cwd()`) and the glob collaborator
(`fastGlob`) are external and passed in through `ServeFS`. JS truthiness
of the `dir` option is modelled exactly: `undefined` is `none`, and the
empty string is falsy, so only `some d` with `d ≠ ""` takes the
directory branch. `ext = ext || [".js", ".ts"]` defaults only a missing
option (`none`); an explicitly supplied empty list is truthy in JS and
is kept. -/

/-- External filesystem and glob collaborators used by `start`. -/
structure ServeFS where
  cwd : String
  readdir : String → List String
  fastGlob : List String → List String

/-- Model of Node's `path.join` for one separator-free right segment, as
used on lines 96 and 104. -/
def pathJoin (a b : String) : String :=
  a ++ "/" ++ b

/-- Index of the last `.` in a character list, if any. -/
def lastDotIdx : List Char → Nat → Option Nat → Option Nat
  | [], _, acc => acc
  | c :: cs, i, acc => lastDotIdx cs (i + 1) (if c = '.' then some i else acc)

/-- Model of Node's `path.extname` on a plain basename: the suffix from
the last `.` on, empty when there is no `.` or the only `.` leads the
name. -/
def extname (s : String) : String :=
  match lastDotIdx s.data 0 none with
  | none => ""
  | some 0 => ""
  | some i => String.mk (s.data.drop i)

/-- The entry points of the directory (legacy) branch (`src/server.js`
lines 93-106): read the directory `cwd/dir`, keep the files whose
extension is in the allow-list (default `[".js", ".ts"]`), and prepend
`dir` to each kept filename. -/
def dirEntryPoints (fsys : ServeFS) (dir : String) (ext : Option (List String)) : List String :=
  let e := ext.getD [".js", ".ts"]
  ((fsys.readdir (pathJoin fsys.cwd dir)).filter (fun f => e.contains (extname f))).map
    (fun f => pathJoin dir f)

/-- Entry-point resolution of `start` (`src/server.js` lines 91-110):
the truthy `dir` option selects the legacy directory branch, otherwise
the glob patterns are expanded. -/
def resolveEntryPoints (fsys : ServeFS) (dir : Option String) (ext : Option (List String))
    (glob : List String) : List String :=
  match dir with
  | some d => if d = "" then fsys.fastGlob glob else dirEntryPoints fsys d ext
  | none => fsys.fastGlob glob

/-! ### Port acquisition and listener binding in `start`
(`src/server.js` lines 88-89 and 123, 158-161)

Modelled from the spec: port selection is an external collaborator
(`get-port`) that returns the preferred port when it is free and
otherwise falls back to some free port — "if a preferred port is
unavailable, fall back to any free port — this must never be a hard
failure". `PortEnv.free` says which ports are free at acquisition time
and `PortEnv.fallback i` is the collaborator's fallback pick for the
`i`-th call; nothing in the spec's collaborator contract prevents two
calls from falling back to the same free port, because the first port is
not yet bound when the second call is made. -/

/-- Environment of one `start` run: which ports are free, and the
fallback pick of each successive `getPort` call. -/
structure PortEnv where
  free : Nat → Bool
  fallback : Nat → Nat

/-- Modelled from the spec: one `getPort({port: preferred})` call, the
`call`-th of the run. -/
def getPortModel (env : PortEnv) (preferred call : Nat) : Nat :=
  if env.free preferred then preferred else env.fallback call

/-- The port-related outcome of `start`: the two acquired ports and the
port the proxy HTTP listener is bound to. -/
structure ServeSetup where
  publicPort : Nat
  internalPort : Nat
  listenPort : Nat
deriving DecidableEq, Repr

/-- The port acquisitions of `start` (`src/server.js` lines 88-89) and
the listener binding (line 158): `getPort({port: 2222})` for the proxy,
then `getPort({port: 2221})` for esbuild, then
`proxyServer.listen(proxyPort)`. -/
def startPorts (env : PortEnv) : ServeSetup :=
  let proxyPort := getPortModel env 2222 0
  let esbuildPort := getPortModel env 2221 1
  { publicPort := proxyPort, internalPort := esbuildPort, listenPort := proxyPort }

/-! ## Theorems -/

set_option maxRecDepth 100000

/-- Absent header: a header that `lookupHeader` does not find fails the
`any` membership test used by the JS object spread. -/
theorem lookupHeader_none_any (hs : List (String × String)) (k : String)
    (h : lookupHeader hs k = none) : hs.any (fun p => p.1 = k) = false := by
  have hf : hs.find? (fun p => p.1 = k) = none := by
    cases hfind : hs.find? (fun p => p.1 = k) with
    | none => rfl
    | some v => simp [lookupHeader, hfind] at h
  cases hb : hs.any (fun p => p.1 = k) with
  | false => rfl
  | true =>
    obtain ⟨x, hx, hpx⟩ := List.any_eq_true.mp hb
    exact absurd hpx (List.find?_eq_none.mp hf x hx)

/-- C1: every request whose query string has a `dev` parameter gets a
200 response with content-type `application/javascript`, header
`access-control-allow-origin: *`, and a body containing the literal
substrings `class Plugin` and `/PluginTemplate.js?`. -/
theorem dev_branch_response (bundler : Request → Response) (req : Request)
    (h : hasParam req.url "dev" = true) :
    (handleRequest bundler req).1.status = 200 ∧
    lookupHeader (handleRequest bundler req).1.headers "content-type"
      = some "application/javascript" ∧
    lookupHeader (handleRequest bundler req).1.headers "access-control-allow-origin"
      = some "*" ∧
    strContains (handleRequest bundler req).1.body "class Plugin" = true ∧
    strContains (handleRequest bundler req).1.body "/PluginTemplate.js?" = true := by
  have hr : (handleRequest bundler req).1
      = { status := 200,
          headers := [("content-type", "application/javascript"),
                      ("access-control-allow-origin", "*")],
          body := templateForPathname (pathnameOf req.url) } := by
    simp [handleRequest, h]
  rw [hr]
  exact ⟨rfl, rfl, rfl, rfl, rfl⟩

/-- Witness for C1 at the concrete request `/foo/bar?dev=1`. -/
theorem dev_branch_response_witness :
    hasParam "/foo/bar?dev=1" "dev" = true ∧
    ((handleRequest (fun _ => ⟨404, [], "nope"⟩) ⟨"/foo/bar?dev=1", "GET", [], ""⟩).1.status = 200 ∧
     lookupHeader (handleRequest (fun _ => ⟨404, [], "nope"⟩) ⟨"/foo/bar?dev=1", "GET", [], ""⟩).1.headers "content-type"
       = some "application/javascript" ∧
     lookupHeader (handleRequest (fun _ => ⟨404, [], "nope"⟩) ⟨"/foo/bar?dev=1", "GET", [], ""⟩).1.headers "access-control-allow-origin"
       = some "*" ∧
     strContains (handleRequest (fun _ => ⟨404, [], "nope"⟩) ⟨"/foo/bar?dev=1", "GET", [], ""⟩).1.body "class Plugin" = true ∧
     strContains (handleRequest (fun _ => ⟨404, [], "nope"⟩) ⟨"/foo/bar?dev=1", "GET", [], ""⟩).1.body "/PluginTemplate.js?" = true) :=
  ⟨by decide, dev_branch_response (fun _ => ⟨404, [], "nope"⟩) ⟨"/foo/bar?dev=1", "GET", [], ""⟩ (by decide)⟩

/-- C2: without a `dev` parameter the proxy forwards: its response has
the internal bundler's status code and byte-identical body for the same
request, and (when the bundler did not itself set it) exactly the
header `access-control-allow-origin: *` appended to the bundler's
headers. -/
theorem forwarding_branch_transparent (bundler : Request → Response) (req : Request)
    (h : hasParam req.url "dev" = false) :
    (handleRequest bundler req).1.status = (bundler req).status ∧
    (handleRequest bundler req).1.body = (bundler req).body ∧
    (handleRequest bundler req).2 = true ∧
    (lookupHeader (bundler req).headers "access-control-allow-origin" = none →
      (handleRequest bundler req).1.headers
        = (bundler req).headers ++ [("access-control-allow-origin", "*")]) := by
  have hr : handleRequest bundler req
      = ({ status := (bundler req).status,
           headers := spreadSetHeader (bundler req).headers "access-control-allow-origin" "*",
           body := (bundler req).body }, true) := by
    simp [handleRequest, h]
  rw [hr]
  exact ⟨rfl, rfl, rfl, fun hn => by
    simp [spreadSetHeader, lookupHeader_none_any _ _ hn]⟩

/-- Witness for C2 at a concrete `dev`-free request and a concrete
bundler response. -/
theorem forwarding_branch_transparent_witness :
    hasParam "/assets/app.js?v=3" "dev" = false ∧
    ((handleRequest (fun _ => ⟨418, [("x-served-by", "esbuild")], "bundled"⟩) ⟨"/assets/app.js?v=3", "POST", [("h", "1")], "payload"⟩).1.status
       = ((fun (_ : Request) => (⟨418, [("x-served-by", "esbuild")], "bundled"⟩ : Response)) ⟨"/assets/app.js?v=3", "POST", [("h", "1")], "payload"⟩).status ∧
     (handleRequest (fun _ => ⟨418, [("x-served-by", "esbuild")], "bundled"⟩) ⟨"/assets/app.js?v=3", "POST", [("h", "1")], "payload"⟩).1.body
       = ((fun (_ : Request) => (⟨418, [("x-served-by", "esbuild")], "bundled"⟩ : Response)) ⟨"/assets/app.js?v=3", "POST", [("h", "1")], "payload"⟩).body ∧
     (handleRequest (fun _ => ⟨418, [("x-served-by", "esbuild")], "bundled"⟩) ⟨"/assets/app.js?v=3", "POST", [("h", "1")], "payload"⟩).2 = true ∧
     (lookupHeader ((fun (_ : Request) => (⟨418, [("x-served-by", "esbuild")], "bundled"⟩ : Response)) ⟨"/assets/app.js?v=3", "POST", [("h", "1")], "payload"⟩).headers "access-control-allow-origin" = none →
       (handleRequest (fun _ => ⟨418, [("x-served-by", "esbuild")], "bundled"⟩) ⟨"/assets/app.js?v=3", "POST", [("h", "1")], "payload"⟩).1.headers
         = ((fun (_ : Request) => (⟨418, [("x-served-by", "esbuild")], "bundled"⟩ : Response)) ⟨"/assets/app.js?v=3", "POST", [("h", "1")], "payload"⟩).headers
             ++ [("access-control-allow-origin", "*")])) :=
  ⟨by decide,
   forwarding_branch_transparent (fun _ => ⟨418, [("x-served-by", "esbuild")], "bundled"⟩)
     ⟨"/assets/app.js?v=3", "POST", [("h", "1")], "payload"⟩ (by decide)⟩

/-- C3: every specifier matching `^https?://` is classified externalize,
in both alias modes and for every behaviour of `require.resolve`. -/
theorem http_specifiers_externalized (preact : Bool) (resolve : String → String)
    (s : String) (h : matchesHttp s = true) :
    classify preact resolve s = ResolveAction.externalize := by
  have h1 : (getExtraConfigPlugins preact resolve).find? (fun r => r.test s)
      = some ⟨matchesHttp, fun _ => ResolveAction.externalize⟩ := by
    unfold getExtraConfigPlugins httpExternalResolver
    simp only [List.cons_append, List.nil_append, List.find?_cons]
    simp [h]
  simp [classify, h1]

/-- Witness for C3 at the specifier `https://example.com/mod.js`, alias
mode enabled. -/
theorem http_specifiers_externalized_witness :
    matchesHttp "https://example.com/mod.js" = true ∧
    classify true (fun m => "/nm/" ++ m) "https://example.com/mod.js"
      = ResolveAction.externalize :=
  ⟨by decide, http_specifiers_externalized true (fun m => "/nm/" ++ m)
    "https://example.com/mod.js" (by decide)⟩

/-- C4: with alias mode enabled, `react`, `react-dom` and
`react-dom/test-utils` each redirect to a non-empty target distinct
from the input (given that `require.resolve` returns absolute paths);
with alias mode disabled, all three are classified unchanged. -/
theorem alias_mode_redirect_targets (resolve : String → String)
    (habs : ∀ m, strTake (resolve m) 1 = "/") :
    (∀ s ∈ ["react", "react-dom", "react-dom/test-utils"],
      ∃ t, classify true resolve s = ResolveAction.redirect t ∧ t ≠ "" ∧ t ≠ s) ∧
    (∀ s ∈ ["react", "react-dom", "react-dom/test-utils"],
      classify false resolve s = ResolveAction.unchanged) := by
  have hne : ∀ m s, strTake s 1 ≠ "/" → resolve m ≠ s := by
    intro m s hs he
    exact hs (he ▸ habs m)
  constructor
  · intro s hs
    simp only [List.mem_cons, List.not_mem_nil, or_false] at hs
    rcases hs with h | h | h
    · exact h ▸ ⟨resolve "preact/compat", rfl,
        hne "preact/compat" "" (by decide), hne "preact/compat" "react" (by decide)⟩
    · exact h ▸ ⟨resolve "preact/compat", rfl,
        hne "preact/compat" "" (by decide), hne "preact/compat" "react-dom" (by decide)⟩
    · exact h ▸ ⟨resolve "preact/test-utils", rfl,
        hne "preact/test-utils" "" (by decide),
        hne "preact/test-utils" "react-dom/test-utils" (by decide)⟩
  · intro s hs
    simp only [List.mem_cons, List.not_mem_nil, or_false] at hs
    rcases hs with h | h | h
    · exact h ▸ rfl
    · exact h ▸ rfl
    · exact h ▸ rfl

/-- Witness for C4 with the concrete resolver `fun m => "/nm/" ++ m`
(absolute paths, as Node's `require.resolve` returns). -/
theorem alias_mode_redirect_targets_witness :
    (∀ m, strTake ((fun m => "/nm/" ++ m) m) 1 = "/") ∧
    ((∀ s ∈ ["react", "react-dom", "react-dom/test-utils"],
       ∃ t, classify true (fun m => "/nm/" ++ m) s = ResolveAction.redirect t ∧ t ≠ "" ∧ t ≠ s) ∧
     (∀ s ∈ ["react", "react-dom", "react-dom/test-utils"],
       classify false (fun m => "/nm/" ++ m) s = ResolveAction.unchanged)) := by
  have habs : ∀ m, strTake ((fun m => "/nm/" ++ m) m) 1 = "/" := by
    intro m
    cases m with
    | mk l => rfl
  exact ⟨habs, alias_mode_redirect_targets (fun m => "/nm/" ++ m) habs⟩

/-- C5: when the external bundler reports a build error, `bundle`
surfaces the failure to the operator and forces a non-zero process exit;
on success it returns normally with no value. -/
theorem bundle_failure_exits_nonzero (msg : String) :
    (bundle (BuildOutcome.error msg)).reported = some msg ∧
    (∃ c, (bundle (BuildOutcome.error msg)).exitCode = some c ∧ c ≠ 0) ∧
    (bundle (BuildOutcome.error msg)).returnedNormally = false ∧
    (bundle BuildOutcome.ok).reported = none ∧
    (bundle BuildOutcome.ok).exitCode = none ∧
    (bundle BuildOutcome.ok).returnedNormally = true :=
  ⟨rfl, ⟨1, rfl, Nat.one_ne_zero⟩, rfl, rfl, rfl, rfl⟩

/-- C6: on a request with a `dev` query parameter the handler's outcome
is the same for every internal bundler (two-run noninterference, so the
forwarding path cannot have been consulted), and the forwarding flag is
off. -/
theorem dev_branch_never_contacts_bundler (b1 b2 : Request → Response) (req : Request)
    (h : hasParam req.url "dev" = true) :
    handleRequest b1 req = handleRequest b2 req ∧
    (handleRequest b1 req).2 = false := by
  simp [handleRequest, h]

/-- Witness for C6 at `/p?dev` with two bundlers that disagree
everywhere. -/
theorem dev_branch_never_contacts_bundler_witness :
    hasParam "/p?dev" "dev" = true ∧
    (handleRequest (fun _ => ⟨200, [], "A"⟩) ⟨"/p?dev", "GET", [], ""⟩
       = handleRequest (fun _ => ⟨500, [("x", "y")], "B"⟩) ⟨"/p?dev", "GET", [], ""⟩ ∧
     (handleRequest (fun _ => ⟨200, [], "A"⟩) ⟨"/p?dev", "GET", [], ""⟩).2 = false) :=
  ⟨by decide, dev_branch_never_contacts_bundler (fun _ => ⟨200, [], "A"⟩)
    (fun _ => ⟨500, [("x", "y")], "B"⟩) ⟨"/p?dev", "GET", [], ""⟩ (by decide)⟩

/-- C7 counterexample: when both preferred ports are already taken and
the port collaborator falls back to the same free port for both
acquisitions — an outcome its contract in the spec permits, since the
first port is not yet bound when the second call is made — the internal
and public ports coincide, so they are not "always distinct, for every
outcome of port acquisition". -/
theorem ports_collide_counterexample :
    (PortEnv.mk (fun _ => false) (fun _ => 3000)).free 2222 = false ∧
    (PortEnv.mk (fun _ => false) (fun _ => 3000)).free 2221 = false ∧
    (startPorts (PortEnv.mk (fun _ => false) (fun _ => 3000))).internalPort
      = (startPorts (PortEnv.mk (fun _ => false) (fun _ => 3000))).publicPort := by
  exact ⟨rfl, rfl, rfl⟩

/-- C7 (amended): the public and internal ports are distinct whenever
both preferred ports (2222 and 2221) are free at acquisition time; when
a preferred port is taken, distinctness is not guaranteed by this code
but depends on the port collaborator not returning the same free port
twice. -/
theorem ports_distinct_when_preferred_free (env : PortEnv)
    (h2 : env.free 2222 = true) (h1 : env.free 2221 = true) :
    (startPorts env).publicPort ≠ (startPorts env).internalPort := by
  simp [startPorts, getPortModel, h1, h2]

/-- Witness for the amended C7 with every port free. -/
theorem ports_distinct_when_preferred_free_witness :
    (PortEnv.mk (fun _ => true) (fun _ => 0)).free 2222 = true ∧
    (PortEnv.mk (fun _ => true) (fun _ => 0)).free 2221 = true ∧
    (startPorts (PortEnv.mk (fun _ => true) (fun _ => 0))).publicPort
      ≠ (startPorts (PortEnv.mk (fun _ => true) (fun _ => 0))).internalPort :=
  ⟨rfl, rfl, ports_distinct_when_preferred_free (PortEnv.mk (fun _ => true) (fun _ => 0)) rfl rfl⟩

/-- C8: a truthy legacy directory option wins over the glob option: the
entry points are the directory listing filtered by the extension
allow-list (defaulting to `.js` and `.ts` when no list is supplied),
prefixed with the directory, and the glob patterns are ignored. -/
theorem dir_mode_wins (fsys : ServeFS) (d : String) (ext : Option (List String))
    (g1 g2 : List String) (hd : d ≠ "") :
    resolveEntryPoints fsys (some d) ext g1 = resolveEntryPoints fsys (some d) ext g2 ∧
    resolveEntryPoints fsys (some d) ext g1
      = ((fsys.readdir (pathJoin fsys.cwd d)).filter
          (fun f => (ext.getD [".js", ".ts"]).contains (extname f))).map
        (fun f => pathJoin d f) := by
  simp [resolveEntryPoints, dirEntryPoints, hd]

/-- Witness for C8 on a concrete directory listing with two different
glob options and no extension list. -/
theorem dir_mode_wins_witness :
    "plugins" ≠ "" ∧
    (resolveEntryPoints (ServeFS.mk "/w" (fun _ => ["a.js", "b.ts", "c.css", "d"]) (fun g => g))
        (some "plugins") none ["src/x.js"]
      = resolveEntryPoints (ServeFS.mk "/w" (fun _ => ["a.js", "b.ts", "c.css", "d"]) (fun g => g))
        (some "plugins") none ["other/y.ts"] ∧
     resolveEntryPoints (ServeFS.mk "/w" (fun _ => ["a.js", "b.ts", "c.css", "d"]) (fun g => g))
        (some "plugins") none ["src/x.js"]
      = (((ServeFS.mk "/w" (fun _ => ["a.js", "b.ts", "c.css", "d"]) (fun g => g)).readdir
            (pathJoin (ServeFS.mk "/w" (fun _ => ["a.js", "b.ts", "c.css", "d"]) (fun g => g)).cwd "plugins")).filter
          (fun f => ((none : Option (List String)).getD [".js", ".ts"]).contains (extname f))).map
        (fun f => pathJoin "plugins" f)) :=
  ⟨by decide,
   dir_mode_wins (ServeFS.mk "/w" (fun _ => ["a.js", "b.ts", "c.css", "d"]) (fun g => g))
     "plugins" none ["src/x.js"] ["other/y.ts"] (by decide)⟩

/-- C9: the Bootstrap Module Generator's output is independent of its
`pathname` argument — any two runs produce character-identical source
text. -/
theorem template_independent_of_pathname (p1 p2 : String) :
    templateForPathname p1 = templateForPathname p2 :=
  rfl

/-- C10: `start` requests preferred port 2222 for the public proxy
listener and preferred port 2221 for the internal esbuild server, and
binds the proxy HTTP listener to the public port obtained from the
first request, not to the internal one. -/
theorem start_listens_on_public_port (env : PortEnv) :
    (startPorts env).publicPort = getPortModel env 2222 0 ∧
    (startPorts env).internalPort = getPortModel env 2221 1 ∧
    (startPorts env).listenPort = (startPorts env).publicPort :=
  ⟨rfl, rfl, rfl⟩

end DfPlugin
